import Mathlib

/-
Verification development for the schemax repository: a shallow embedding of
its data model (models.py), schema parser and validator (schema_parser.py),
state fetcher (databricks_client.py) and change generator (change_generator.py),
followed by theorems settling the specification claims.
-/

namespace Schemax

/-
Python string helpers.  Python's str.strip() removes leading and trailing
whitespace; it is modelled here over the ASCII whitespace characters
(space, tab, newline, carriage return, vertical tab, form feed).
-/

def isPySpace (c : Char) : Bool :=
  c = ' ' || c = '\t' || c = '\n' || c = '\r' || c = '\x0b' || c = '\x0c'

def pyStrip (s : String) : String :=
  String.mk (((s.data.dropWhile isPySpace).reverse.dropWhile isPySpace).reverse)

/-- Split a character list at every occurrence of the separator character. -/
def splitCharList (sep : Char) : List Char → List (List Char)
  | [] => [[]]
  | x :: xs =>
    let r := splitCharList sep xs
    if x = sep then [] :: r
    else
      match r with
      | [] => [[x]]
      | h :: t => (x :: h) :: t

/-- Python s.split(sep) for a one-character separator ("".split(sep) = [""]). -/
def pySplit (s : String) (sep : Char) : List String :=
  (splitCharList sep s.data).map String.mk

/-- Python s.startswith(p). -/
def pyStartsWith (s p : String) : Bool :=
  p.data.isPrefixOf s.data

/-- Python s[n:] (character-based slicing). -/
def pyDrop (s : String) (n : Nat) : String :=
  String.mk (s.data.drop n)

/-- Python s.lower(), over ASCII letters. -/
def pyLower (s : String) : String :=
  String.mk (s.data.map Char.toLower)

/-- Truthiness of an Optional[str] value under Python `if x:` (None and "" are falsy). -/
def optTruthy (o : Option String) : Option String :=
  match o with
  | some c => if c = "" then none else some c
  | none => none

/- ===== models.py: enums and data structures ===== -/

inductive TableType where
  | EXTERNAL
  | MANAGED
  | VIEW
  | MATERIALIZED_VIEW
deriving DecidableEq, Repr

inductive VolumeType where
  | MANAGED
  | EXTERNAL
deriving DecidableEq, Repr

/--
Column (models.py).  Fields not referenced by any verified property
(position, primary_key, mask_expression, tags) are omitted.
-/
structure Column where
  name : String
  type : String
  nullable : Bool := true
  comment : Option String := none
  default_value : Option String := none
deriving DecidableEq, Repr

/--
Table (models.py).  Fields not referenced by any verified property
(format, properties, partitioned_by, constraints, cluster_by, row_filter,
owner, timestamps, tags) are omitted.
-/
structure Table where
  name : String
  type : TableType := .MANAGED
  comment : Option String := none
  location : Option String := none
  columns : List Column := []
deriving DecidableEq, Repr

/-- Volume (models.py); metadata fields not referenced by verified properties omitted. -/
structure Volume where
  name : String
  type : VolumeType := .MANAGED
  comment : Option String := none
  location : Option String := none
deriving DecidableEq, Repr

/-- Schema (models.py); properties, managed_location, owner, timestamps, tags omitted. -/
structure Schema where
  name : String
  comment : Option String := none
  tables : List Table := []
  volumes : List Volume := []
deriving DecidableEq, Repr

/-- Catalog (models.py); properties, managed_location, bound_workspaces, owner, tags omitted. -/
structure Catalog where
  name : String
  comment : Option String := none
deriving DecidableEq, Repr

structure SchemaDefinition where
  catalog : Catalog
  schemas : List Schema := []
deriving DecidableEq, Repr

/-
Pydantic field validators.  Each validator below is the literal translation of
the corresponding @field_validator in models.py.  Pydantic runs field
validators in field declaration order, and (validate_default being false)
only on fields whose value was explicitly provided; an unprovided field keeps
its default unvalidated.  The mk* constructors below model Model(**kwargs)
construction accordingly: arguments of type Option (Option _) distinguish
"not provided" (outer none, validator skipped) from "explicitly provided"
(outer some, validator applied).
-/

def Column.validate_name (v : String) : Except String String :=
  if v = "" ∨ pyStrip v = "" then .error "Column name cannot be empty" else .ok (pyStrip v)

def Table.validate_name (v : String) : Except String String :=
  if v = "" ∨ pyStrip v = "" then .error "Table name cannot be empty" else .ok (pyStrip v)

/-- Table.validate_location: external tables must have a (truthy) location. -/
def Table.validate_location (ty : TableType) (v : Option String) : Except String (Option String) :=
  if ty = .EXTERNAL ∧ (v = none ∨ v = some "") then
    .error "External tables must specify a location"
  else .ok v

def Volume.validate_name (v : String) : Except String String :=
  if v = "" ∨ pyStrip v = "" then .error "Volume name cannot be empty" else .ok (pyStrip v)

def Volume.validate_location (ty : VolumeType) (v : Option String) : Except String (Option String) :=
  if ty = .EXTERNAL ∧ (v = none ∨ v = some "") then
    .error "External volumes must specify a location"
  else .ok v

def Schema.validate_name (v : String) : Except String String :=
  if v = "" ∨ pyStrip v = "" then .error "Schema name cannot be empty" else .ok (pyStrip v)

def Catalog.validate_name (v : String) : Except String String :=
  if v = "" ∨ pyStrip v = "" then .error "Catalog name cannot be empty" else .ok (pyStrip v)

def mkColumn (name : String) (type : String) (nullable : Bool := true)
    (comment : Option String := none) (default_value : Option String := none) :
    Except String Column :=
  match Column.validate_name name with
  | .error e => .error e
  | .ok n => .ok { name := n, type := type, nullable := nullable,
                   comment := comment, default_value := default_value }

/--
The location value stored by Table construction: the field validator runs
only when the field was explicitly provided (outer some); an unprovided
location keeps the default None unvalidated.
-/
def tableLocationField (type : TableType) (location : Option (Option String)) :
    Except String (Option String) :=
  match location with
  | none => .ok none
  | some v => Table.validate_location type v

def mkTable (name : String) (type : TableType := .MANAGED)
    (location : Option (Option String) := none) (columns : List Column := [])
    (comment : Option String := none) : Except String Table :=
  match Table.validate_name name with
  | .error e => .error e
  | .ok n =>
    match tableLocationField type location with
    | .error e => .error e
    | .ok loc => .ok { name := n, type := type, comment := comment,
                       location := loc, columns := columns }

/--
The location value stored by Volume construction; same provided/unprovided
semantics as for Table.
-/
def volumeLocationField (type : VolumeType) (location : Option (Option String)) :
    Except String (Option String) :=
  match location with
  | none => .ok none
  | some v => Volume.validate_location type v

def mkVolume (name : String) (type : VolumeType := .MANAGED)
    (location : Option (Option String) := none) (comment : Option String := none) :
    Except String Volume :=
  match Volume.validate_name name with
  | .error e => .error e
  | .ok n =>
    match volumeLocationField type location with
    | .error e => .error e
    | .ok loc => .ok { name := n, type := type, comment := comment, location := loc }

def mkSchema (name : String) (tables : List Table := []) (volumes : List Volume := [])
    (comment : Option String := none) : Except String Schema :=
  match Schema.validate_name name with
  | .error e => .error e
  | .ok n => .ok { name := n, comment := comment, tables := tables, volumes := volumes }

def mkCatalog (name : String) (comment : Option String := none) : Except String Catalog :=
  match Catalog.validate_name name with
  | .error e => .error e
  | .ok n => .ok { name := n, comment := comment }

/- ===== models.py: CurrentState and ChangeScript ===== -/

/--
Attribute map of an observed column, as produced by
DatabricksClient._column_to_dict.  The loosely typed Dict[str, Any] maps are
modelled as records of optional attributes ("attribute present / absent").
-/
structure ColumnInfoD where
  name : String
  type_text : Option String := none
  type_name : Option String := none
  nullable : Option Bool := none
  comment : Option String := none
  position : Option Nat := none
deriving DecidableEq, Repr

/-- Attribute map of an observed table, as produced by DatabricksClient._table_to_dict. -/
structure TableInfoD where
  name : String
  catalog_name : String := ""
  schema_name : String := ""
  table_type : Option String := none
  data_source_format : Option String := none
  comment : Option String := none
  properties : List (String × String) := []
  owner : Option String := none
  created_at : Option Nat := none
  updated_at : Option Nat := none
  storage_location : Option String := none
  columns : Option (List ColumnInfoD) := none
deriving DecidableEq, Repr

/-- Attribute map of an observed schema, as produced by DatabricksClient._schema_to_dict. -/
structure SchemaInfoD where
  name : String
  catalog_name : String := ""
  comment : Option String := none
  properties : List (String × String) := []
  full_name : String := ""
  owner : Option String := none
  created_at : Option Nat := none
  updated_at : Option Nat := none
deriving DecidableEq, Repr

/--
CurrentState (models.py).  The Dict[str, ...] maps are modelled as
association lists in insertion order.  The volumes map is never populated by
the client in this codebase; its entries are opaque attribute maps.
catalog_tags is omitted (not referenced by any verified property).
-/
structure CurrentState where
  catalog_exists : Bool := false
  catalog_properties : List (String × String) := []
  schemas : List (String × SchemaInfoD) := []
  tables : List (String × List (String × TableInfoD)) := []
  volumes : List (String × List (String × List (String × String))) := []
deriving DecidableEq, Repr

structure ChangeScript where
  sql : String
  changes : List String := []
  warnings : List String := []
deriving DecidableEq, Repr

/-- ChangeScript.has_changes: Python `bool(self.changes)`. -/
def ChangeScript.has_changes (cs : ChangeScript) : Bool :=
  !cs.changes.isEmpty

/- ===== schema_parser.py ===== -/

/--
Scalar YAML values as they reach _parse_column.  Pydantic lax-mode coercions
that cannot occur for values produced by yaml.safe_load (e.g. bool-from-string)
are not modelled.
-/
inductive Yaml where
  | s : String → Yaml
  | b : Bool → Yaml
  | i : Int → Yaml
  | null : Yaml
deriving DecidableEq, Repr

/-- Python str() rendering of a scalar, as used in f-string error messages. -/
def Yaml.render : Yaml → String
  | .s v => v
  | .b true => "True"
  | .b false => "False"
  | .i v => toString v
  | .null => "None"

/-- Pydantic coercion to a str field: only str values are accepted. -/
def Yaml.asStr : Yaml → Except String String
  | .s v => .ok v
  | _ => .error "Input should be a valid string"

/-- Pydantic coercion to a bool field. -/
def Yaml.asBool : Yaml → Except String Bool
  | .b v => .ok v
  | _ => .error "Input should be a valid boolean"

/-- YAML mappings have unique keys; modelled as an association list. -/
abbrev YamlMap := List (String × Yaml)

def YamlMap.get (m : YamlMap) (k : String) : Option Yaml :=
  (m.find? (fun p => p.1 == k)).map (fun p => p.2)

/-- A column entry in the schema document: a bare name string or a mapping. -/
inductive ColumnEntry where
  | str : String → ColumnEntry
  | map : YamlMap → ColumnEntry
deriving DecidableEq, Repr

/--
SchemaParser._parse_column.  A bare string becomes Column(name=s, type="STRING");
a mapping must contain name and type; nullable, comment and default_value are
copied only when present.  Optional[str] fields accept an explicit null.
-/
def parse_column (entry : ColumnEntry) : Except String Column :=
  match entry with
  | .str s => mkColumn s "STRING"
  | .map d =>
    match d.get "name" with
    | none => .error "Column must have a \x27name\x27 field"
    | some nameVal =>
      match d.get "type" with
      | none => .error ("Column \x27" ++ nameVal.render ++ "\x27 must have a \x27type\x27 field")
      | some typeVal =>
        match nameVal.asStr with
        | .error e => .error e
        | .ok n =>
          match typeVal.asStr with
          | .error e => .error e
          | .ok ty =>
            let nullableVal : Except String Bool :=
              match d.get "nullable" with
              | none => .ok true
              | some v => v.asBool
            let commentVal : Except String (Option String) :=
              match d.get "comment" with
              | none => .ok none
              | some .null => .ok none
              | some v => (v.asStr).map some
            let defaultVal : Except String (Option String) :=
              match d.get "default_value" with
              | none => .ok none
              | some .null => .ok none
              | some v => (v.asStr).map some
            match nullableVal with
            | .error e => .error e
            | .ok nb =>
              match commentVal with
              | .error e => .error e
              | .ok cm =>
                match defaultVal with
                | .error e => .error e
                | .ok dv => mkColumn n ty nb cm dv

/-- Python len(names) != len(set(names)). -/
def hasDuplicates (l : List String) : Bool :=
  l.dedup.length != l.length

/-- Validation messages contributed by one table (SchemaParser.validate_schema inner loop). -/
def tableErrors (schemaName : String) (t : Table) : List String :=
  (if hasDuplicates (t.columns.map Column.name) then
    ["Duplicate column names in table \x27" ++ schemaName ++ "." ++ t.name ++ "\x27"]
  else [])
  ++ (if t.type = .EXTERNAL ∧ (t.location = none ∨ t.location = some "") then
    ["External table \x27" ++ schemaName ++ "." ++ t.name ++ "\x27 must specify a location"]
  else [])

/-- Validation messages contributed by one schema (SchemaParser.validate_schema middle loop). -/
def schemaErrors (s : Schema) : List String :=
  (if hasDuplicates (s.tables.map Table.name) then
    ["Duplicate table names in schema \x27" ++ s.name ++ "\x27"]
  else [])
  ++ s.tables.flatMap (tableErrors s.name)

/-- The full errors list accumulated by SchemaParser.validate_schema, in emission order. -/
def collectValidationErrors (sd : SchemaDefinition) : List String :=
  (if hasDuplicates (sd.schemas.map Schema.name) then ["Duplicate schema names found"] else [])
  ++ sd.schemas.flatMap schemaErrors

/--
SchemaParser.validate_schema: collect all violations, then raise a single
ValidationError joining them, or return normally when there are none.
-/
def validate_schema (sd : SchemaDefinition) : Except String Unit :=
  let errors := collectValidationErrors sd
  if errors = [] then .ok ()
  else .error ("Schema validation failed: " ++ String.intercalate "; " errors)

/- ===== databricks_client.py ===== -/

/-- Exceptions raised by the remote SDK calls. -/
inductive DbError where
  | notFound
  | permissionDenied : String → DbError
  | other : String → DbError
deriving DecidableEq, Repr

/-- SDK CatalogInfo, restricted to the attributes the client reads. -/
structure CatalogInfoW where
  properties : Option (List (String × String)) := none
deriving DecidableEq, Repr

/-- SDK ColumnInfo, restricted to the attributes the client reads. -/
structure ColumnInfoW where
  name : String
  type_text : Option String := none
  type_name : Option String := none
  nullable : Option Bool := none
  comment : Option String := none
  position : Option Nat := none
deriving DecidableEq, Repr

/-- SDK TableInfo, restricted to the attributes the client reads. -/
structure TableInfoW where
  name : String
  full_name : String := ""
  catalog_name : String := ""
  schema_name : String := ""
  table_type : Option String := none
  data_source_format : Option String := none
  comment : Option String := none
  properties : Option (List (String × String)) := none
  owner : Option String := none
  created_at : Option Nat := none
  updated_at : Option Nat := none
  storage_location : Option String := none
  columns : Option (List ColumnInfoW) := none
deriving DecidableEq, Repr

/-- SDK SchemaInfo, restricted to the attributes the client reads. -/
structure SchemaInfoW where
  name : String
  catalog_name : String := ""
  comment : Option String := none
  properties : Option (List (String × String)) := none
  full_name : String := ""
  owner : Option String := none
  created_at : Option Nat := none
  updated_at : Option Nat := none
deriving DecidableEq, Repr

/--
The remote workspace, abstracted as an oracle over the SDK calls the client
makes.  catalogsGet is keyed by catalog name, schemasGet by full name,
tablesList by catalog and schema name, tablesGet by full name.
-/
structure WorkspaceOracle where
  catalogsGet : String → Except DbError CatalogInfoW
  schemasList : String → Except DbError (List SchemaInfoW)
  schemasGet : String → Except DbError SchemaInfoW
  tablesList : String → String → Except DbError (List TableInfoW)
  tablesGet : String → Except DbError TableInfoW

/-- DatabricksClient._column_to_dict. -/
def columnToDict (c : ColumnInfoW) : ColumnInfoD :=
  { name := c.name, type_text := c.type_text, type_name := c.type_name,
    nullable := c.nullable, comment := c.comment, position := c.position }

/--
DatabricksClient._table_to_dict.  The storage_location and columns keys are
added only when truthy (absent for None, "" or an empty column list).
-/
def tableToDict (t : TableInfoW) : TableInfoD :=
  { name := t.name, catalog_name := t.catalog_name, schema_name := t.schema_name,
    table_type := t.table_type, data_source_format := t.data_source_format,
    comment := t.comment, properties := t.properties.getD [], owner := t.owner,
    created_at := t.created_at, updated_at := t.updated_at,
    storage_location :=
      match t.storage_location with
      | some s => if s = "" then none else some s
      | none => none,
    columns :=
      match t.columns with
      | some cs => if cs = [] then none else some (cs.map columnToDict)
      | none => none }

/-- DatabricksClient._schema_to_dict. -/
def schemaToDict (s : SchemaInfoW) : SchemaInfoD :=
  { name := s.name, catalog_name := s.catalog_name, comment := s.comment,
    properties := s.properties.getD [], full_name := s.full_name,
    owner := s.owner, created_at := s.created_at, updated_at := s.updated_at }

/--
Python dict.update of one _table_to_dict result with another: the
unconditional keys of the detailed dict overwrite, the conditional keys
(storage_location, columns) survive from the basic dict when the detailed
dict lacks them.
-/
def dictUpdate (basic det : TableInfoD) : TableInfoD :=
  { det with storage_location := det.storage_location <|> basic.storage_location,
             columns := det.columns <|> basic.columns }

/--
DatabricksClient._get_tables_in_schema.  NotFound from the listing yields an
empty table map; any other listing failure raises; a failure fetching one
table's detailed info degrades to that table's basic attribute dict.
-/
def getTablesInSchema (w : WorkspaceOracle) (catalogName schemaName : String) :
    Except String (List (String × TableInfoD)) :=
  match w.tablesList catalogName schemaName with
  | .error .notFound => .ok []
  | .error (.permissionDenied m) =>
    .error ("Failed to list tables in " ++ catalogName ++ "." ++ schemaName ++ ": " ++ m)
  | .error (.other m) =>
    .error ("Failed to list tables in " ++ catalogName ++ "." ++ schemaName ++ ": " ++ m)
  | .ok lst =>
    .ok (lst.map fun t =>
      let basic := tableToDict t
      match w.tablesGet t.full_name with
      | .ok det => (t.name, dictUpdate basic (tableToDict det))
      | .error _ => (t.name, basic))

/-- DatabricksClient._get_schema_info: NotFound becomes None, other errors propagate. -/
def getSchemaInfo (w : WorkspaceOracle) (catalogName schemaName : String) :
    Except DbError (Option SchemaInfoD) :=
  match w.schemasGet (catalogName ++ "." ++ schemaName) with
  | .error .notFound => .ok none
  | .error e => .error e
  | .ok si => .ok (some (schemaToDict si))

/-- Accumulate one listed schema and its tables into the state (all-schemas branch). -/
def addSchemaState (w : WorkspaceOracle) (catalogName : String)
    (st : CurrentState) (s : SchemaInfoW) : Except String CurrentState :=
  match getTablesInSchema w catalogName s.name with
  | .error m => .error m
  | .ok tbls =>
    .ok { st with schemas := st.schemas ++ [(s.name, schemaToDict s)],
                  tables := st.tables ++ [(s.name, tbls)] }

/--
DatabricksClient.get_current_state.  A missing catalog is not an error: the
function returns a fresh CurrentState (catalog_exists false, empty maps).
PermissionDenied is reported specially; every other failure is wrapped as a
connection error.
-/
def getCurrentState (w : WorkspaceOracle) (catalog_name : String)
    (schema_name : Option String := none) : Except String CurrentState :=
  match w.catalogsGet catalog_name with
  | .error .notFound => .ok {}
  | .error (.permissionDenied m) =>
    .error ("Permission denied accessing catalog \x27" ++ catalog_name ++ "\x27: " ++ m)
  | .error (.other m) => .error ("Failed to inspect target environment: " ++ m)
  | .ok info =>
    let st : CurrentState :=
      { catalog_exists := true, catalog_properties := info.properties.getD [] }
    match schema_name with
    | some sn =>
      match getSchemaInfo w catalog_name sn with
      | .error (.permissionDenied m) =>
        .error ("Permission denied accessing catalog \x27" ++ catalog_name ++ "\x27: " ++ m)
      | .error .notFound => .error "Failed to inspect target environment: NotFound"
      | .error (.other m) => .error ("Failed to inspect target environment: " ++ m)
      | .ok none => .ok st
      | .ok (some si) =>
        match getTablesInSchema w catalog_name sn with
        | .error m => .error ("Failed to inspect target environment: " ++ m)
        | .ok tbls => .ok { st with schemas := [(sn, si)], tables := [(sn, tbls)] }
    | none =>
      match w.schemasList catalog_name with
      | .error (.permissionDenied m) =>
        .error ("Permission denied accessing catalog \x27" ++ catalog_name ++ "\x27: " ++ m)
      | .error .notFound => .error "Failed to inspect target environment: NotFound"
      | .error (.other m) => .error ("Failed to inspect target environment: " ++ m)
      | .ok schemas =>
        match schemas.foldlM (addSchemaState w catalog_name) st with
        | .error m => .error ("Failed to inspect target environment: " ++ m)
        | .ok st2 => .ok st2

/- ===== change_generator.py ===== -/

/-- Output fields of the SchemaAnalyzer DSPy signature. -/
structure AnalyzerOutput where
  analysis : String
  changes_needed : String
deriving DecidableEq, Repr

/-- Output fields of the SQLGenerator DSPy signature. -/
structure SQLGenOutput where
  sql_script : String
  warnings : String
deriving DecidableEq, Repr

/-- Output fields of the ChangeValidator DSPy signature. -/
structure ValidatorOutput where
  is_valid : String
  validation_issues : String
  corrected_sql : String
deriving DecidableEq, Repr

/--
The three DSPy chain-of-thought modules backed by the LLM serving endpoint,
abstracted as an oracle from their input fields to their output fields.  In
the running system each field is a completion sampled from the endpoint at
the configured temperature (0.1 by default); a fixed oracle value represents
one concrete draw of those completions.
-/
structure LLMOracle where
  analyze : String → String → String → String → AnalyzerOutput
  generateSQL : String → String → String → String → SQLGenOutput
  validate : String → String → ValidatorOutput

/-- Rendering of the TableType enum value inside an f-string. -/
def TableType.render : TableType → String
  | .EXTERNAL => "EXTERNAL"
  | .MANAGED => "MANAGED"
  | .VIEW => "VIEW"
  | .MATERIALIZED_VIEW => "MATERIALIZED_VIEW"

/-- Lines contributed by one column (ChangeGenerator._schema_def_to_string). -/
def columnLines (c : Column) : List String :=
  ["    Column: " ++ c.name ++ " " ++ c.type ++ " " ++ (if c.nullable then "NULL" else "NOT NULL")]
  ++ (optTruthy c.comment).toList.map (fun cm => "      Comment: " ++ cm)

/-- Lines contributed by one table (ChangeGenerator._schema_def_to_string). -/
def tableLines (t : Table) : List String :=
  ["  Table: " ++ t.name ++ " (Type: " ++ t.type.render ++ ")"]
  ++ (optTruthy t.comment).toList.map (fun cm => "    Comment: " ++ cm)
  ++ (optTruthy t.location).toList.map (fun l => "    Location: " ++ l)
  ++ t.columns.flatMap columnLines

/-- ChangeGenerator._schema_def_to_string. -/
def schemaDefToString (sd : SchemaDefinition) : String :=
  String.intercalate "\n" (
    ["Catalog: " ++ sd.catalog.name]
    ++ (optTruthy sd.catalog.comment).toList.map (fun cm => "  Comment: " ++ cm)
    ++ sd.schemas.flatMap (fun s =>
      ["\nSchema: " ++ s.name]
      ++ (optTruthy s.comment).toList.map (fun cm => "  Comment: " ++ cm)
      ++ s.tables.flatMap tableLines))

/-- Lines contributed by one observed column (ChangeGenerator._current_state_to_string). -/
def columnInfoLines (c : ColumnInfoD) : List String :=
  ["    Column: " ++ c.name ++ " "
    ++ (match c.type_text with
        | some t => t
        | none => match c.type_name with | some t => t | none => "UNKNOWN")
    ++ " " ++ (match c.nullable with | some true => "NULL" | some false => "NOT NULL" | none => "NULL")]
  ++ (optTruthy c.comment).toList.map (fun cm => "      Comment: " ++ cm)

/-- Lines contributed by one observed table (ChangeGenerator._current_state_to_string). -/
def tableInfoLines (tn : String) (ti : TableInfoD) : List String :=
  ["  Table: " ++ tn ++ " (Type: " ++ (ti.table_type.getD "UNKNOWN") ++ ")"]
  ++ (optTruthy ti.comment).toList.map (fun cm => "    Comment: " ++ cm)
  ++ (optTruthy ti.storage_location).toList.map (fun l => "    Location: " ++ l)
  ++ (ti.columns.getD []).flatMap columnInfoLines

/-- Association-list counterpart of Python dict.get. -/
def alistGet (m : List (String × List (String × TableInfoD))) (k : String) :
    Option (List (String × TableInfoD)) :=
  (m.find? (fun p => p.1 == k)).map (fun p => p.2)

/-- ChangeGenerator._current_state_to_string. -/
def currentStateToString (cs : CurrentState) : String :=
  let lines :=
    [if cs.catalog_exists then "Catalog exists" else "Catalog does not exist"]
    ++ cs.schemas.flatMap (fun p =>
      ["\nSchema: " ++ p.1]
      ++ (optTruthy p.2.comment).toList.map (fun cm => "  Comment: " ++ cm)
      ++ ((alistGet cs.tables p.1).getD []).flatMap (fun q => tableInfoLines q.1 q.2))
  String.intercalate "\n" lines

/-- The list markers stripped from a change line, in the order tried. -/
def listMarkers : List String :=
  ["- ", "* ", "â€¢ ", "1. ", "2. ", "3. ", "4. ", "5. "]

/-- Strip the first matching list marker from a line, then re-strip whitespace. -/
def dropListMarker (line : String) : String :=
  match listMarkers.find? (fun p => pyStartsWith line p) with
  | some p => pyStrip (pyDrop line p.length)
  | none => line

/--
Body of ChangeGenerator._extract_changes_list's loop: the change lines
collected from the analysis text (non-empty, non-comment lines with list
markers removed).
-/
def extractedLines (changes_needed : String) : List String :=
  (pySplit (pyStrip changes_needed) '\n').filterMap (fun l =>
    let l := pyStrip l
    if l ≠ "" ∧ ¬ pyStartsWith l "#" then
      let l2 := dropListMarker l
      if l2 ≠ "" then some l2 else none
    else none)

/--
ChangeGenerator._extract_changes_list: the collected change lines, falling
back to a single placeholder entry when nothing was extracted, so the result
is never empty.
-/
def extract_changes_list (changes_needed : String) : List String :=
  if extractedLines changes_needed = [] then
    ["Schema changes needed (see SQL script for details)"]
  else extractedLines changes_needed

/--
ChangeGenerator.generate_changes.  The desired schema and observed state are
rendered to text, the three LLM-backed modules are invoked in sequence, and
the ChangeScript is assembled from their string outputs: the change list is
parsed out of the analyzer's changes_needed text, the corrected SQL replaces
the generated SQL only when the validator answered "false", and warnings
collect the validator issues (when invalid) followed by the generator's
warnings (when non-empty).
-/
def generate_changes (o : LLMOracle) (schema_def : SchemaDefinition)
    (current_state : CurrentState) : ChangeScript :=
  let desired := schemaDefToString schema_def
  let current := currentStateToString current_state
  let analysis_result := o.analyze desired current schema_def.catalog.name ""
  let sql_result := o.generateSQL analysis_result.analysis analysis_result.changes_needed
    schema_def.catalog.name ""
  let validation_result := o.validate sql_result.sql_script analysis_result.analysis
  let invalid := pyLower validation_result.is_valid = "false"
  let final_sql :=
    if invalid ∧ validation_result.corrected_sql ≠ "" then validation_result.corrected_sql
    else sql_result.sql_script
  let warnings :=
    (if invalid then ["SQL validation issues: " ++ validation_result.validation_issues] else [])
    ++ (if sql_result.warnings ≠ "" then [sql_result.warnings] else [])
  { sql := final_sql,
    changes := extract_changes_list analysis_result.changes_needed,
    warnings := warnings }

/- ===== Concrete fixtures used by the claim theorems and witnesses ===== -/

/-- The spec's scenario schema: catalog c1, schema s1, table t1(id BIGINT NOT NULL). -/
def sdScenario : SchemaDefinition :=
  { catalog := { name := "c1" },
    schemas := [{ name := "s1",
                  tables := [{ name := "t1",
                               columns := [{ name := "id", type := "BIGINT",
                                             nullable := false }] }] }] }

/-- An observed state in which the catalog does not exist. -/
def csAbsent : CurrentState := {}

/-- An observed state structurally identical to sdScenario on every compared field. -/
def csPresent : CurrentState :=
  { catalog_exists := true,
    schemas := [("s1", { name := "s1" })],
    tables := [("s1", [("t1", { name := "t1", table_type := some "MANAGED",
                                columns := some [{ name := "id",
                                                   type_text := some "BIGINT",
                                                   nullable := some false }] })])] }

/-- One possible draw of LLM completions when the catalog is reported absent. -/
def oracleCatalogMissing : LLMOracle :=
  { analyze := fun _ _ _ _ =>
      { analysis := "Catalog c1 does not exist; every desired object is missing",
        changes_needed := "- Create catalog c1\n- Create schema s1\n- Create table t1" },
    generateSQL := fun _ _ _ _ =>
      { sql_script := "CREATE CATALOG c1;", warnings := "" },
    validate := fun _ _ =>
      { is_valid := "true", validation_issues := "", corrected_sql := "" } }

/-- One possible draw of LLM completions when desired and current state agree. -/
def oracleNoDiff : LLMOracle :=
  { analyze := fun _ _ _ _ =>
      { analysis := "Desired and current state match", changes_needed := "" },
    generateSQL := fun _ _ _ _ =>
      { sql_script := "-- No changes required", warnings := "" },
    validate := fun _ _ =>
      { is_valid := "true", validation_issues := "", corrected_sql := "" } }

/-- A first draw of completions for a fixed (S, C) pair. -/
def oracleDrawA : LLMOracle :=
  { analyze := fun _ _ _ _ =>
      { analysis := "The catalog is missing",
        changes_needed := "- Create catalog c1\n- Create schema s1" },
    generateSQL := fun _ _ _ _ =>
      { sql_script := "CREATE CATALOG c1;", warnings := "" },
    validate := fun _ _ =>
      { is_valid := "true", validation_issues := "", corrected_sql := "" } }

/-- A second draw of completions for the same (S, C) pair, sampled differently. -/
def oracleDrawB : LLMOracle :=
  { analyze := fun _ _ _ _ =>
      { analysis := "The catalog is missing",
        changes_needed := "- Create catalog c1 and then schema s1 inside it" },
    generateSQL := fun _ _ _ _ =>
      { sql_script := "CREATE CATALOG c1;", warnings := "" },
    validate := fun _ _ =>
      { is_valid := "true", validation_issues := "", corrected_sql := "" } }

/-- A table whose columns duplicate the name x. -/
def tDupCols : Table :=
  { name := "t", columns := [{ name := "x", type := "INT" }, { name := "x", type := "INT" }] }

/-- An EXTERNAL table built without a location (pydantic accepts it: the
location validator does not run on the unprovided default). -/
def tExtNoLoc : Table :=
  { name := "e", type := .EXTERNAL }

/-- The schema holding all table-level violations of sdBad. -/
def sBad : Schema :=
  { name := "s2", tables := [tDupCols, { name := "t" }, tExtNoLoc] }

/-- A schema definition with four distinct validation violations. -/
def sdBad : SchemaDefinition :=
  { catalog := { name := "c" },
    schemas := [{ name := "dup" }, { name := "dup" }, sBad] }

/-- A MANAGED table carrying a non-empty location. -/
def tManagedLoc : Table :=
  { name := "t1", type := .MANAGED, location := some "s3://data/managed" }

/-- A schema definition containing tManagedLoc; it passes validation. -/
def sdManagedLoc : SchemaDefinition :=
  { catalog := { name := "c" }, schemas := [{ name := "s1", tables := [tManagedLoc] }] }

/-- An EXTERNAL table with a non-empty location. -/
def tExtLoc : Table :=
  { name := "events", type := .EXTERNAL, location := some "s3://bucket/events" }

/-- The schema of sdOkExt. -/
def sOkExt : Schema :=
  { name := "s1", tables := [tExtLoc] }

/-- A valid schema definition containing an EXTERNAL table. -/
def sdOkExt : SchemaDefinition :=
  { catalog := { name := "c" }, schemas := [sOkExt] }

/-- An observed table whose detailed fetch will fail. -/
def tEx : TableInfoW :=
  { name := "t1", full_name := "c.s.t1", table_type := some "MANAGED" }

/-- A workspace whose catalog lookup reports NotFound and whose per-table
detail fetch always fails. -/
def wEx : WorkspaceOracle :=
  { catalogsGet := fun _ => .error .notFound,
    schemasList := fun _ => .ok [],
    schemasGet := fun _ => .error .notFound,
    tablesList := fun _ _ => .ok [tEx],
    tablesGet := fun _ => .error (.other "timeout fetching table details") }

/- ===== Helper lemmas ===== -/

theorem nameValidator_ok {msg v n : String}
    (h : (if v = "" ∨ pyStrip v = "" then (Except.error msg : Except String String)
          else .ok (pyStrip v)) = .ok n) :
    n = pyStrip v ∧ n ≠ "" := by
  by_cases hc : v = "" ∨ pyStrip v = ""
  · rw [if_pos hc] at h
    cases h
  · rw [if_neg hc] at h
    injection h with h
    subst h
    exact ⟨rfl, (not_or.mp hc).2⟩

theorem nameValidator_error {msg v : String} (h : pyStrip v = "") :
    (if v = "" ∨ pyStrip v = "" then (Except.error msg : Except String String)
     else .ok (pyStrip v)) = .error msg :=
  if_pos (Or.inr h)

theorem mem_collect_of_mem_schemaErrors {sd : SchemaDefinition} {s : Schema} {e : String}
    (hs : s ∈ sd.schemas) (he : e ∈ schemaErrors s) :
    e ∈ collectValidationErrors sd :=
  List.mem_append_right _ (List.mem_flatMap.mpr ⟨s, hs, he⟩)

theorem mem_schemaErrors_of_mem_tableErrors {s : Schema} {t : Table} {e : String}
    (ht : t ∈ s.tables) (he : e ∈ tableErrors s.name t) :
    e ∈ schemaErrors s :=
  List.mem_append_right _ (List.mem_flatMap.mpr ⟨t, ht, he⟩)

theorem validate_schema_ok_iff (sd : SchemaDefinition) :
    validate_schema sd = .ok () ↔ collectValidationErrors sd = [] := by
  constructor
  · intro h
    by_contra hne
    simp only [validate_schema] at h
    rw [if_neg hne] at h
    cases h
  · intro h
    simp only [validate_schema]
    rw [if_pos h]

theorem extract_changes_list_ne_nil (s : String) : extract_changes_list s ≠ [] := by
  unfold extract_changes_list
  split <;> simp_all

theorem has_changes_of_ne_nil {cs : ChangeScript} (h : cs.changes ≠ []) :
    cs.has_changes = true := by
  cases hc : cs.changes with
  | nil => exact absurd hc h
  | cons a l => simp [ChangeScript.has_changes, hc]

/- ===== Claim theorems ===== -/

/--
C5: for every ChangeScript value, has_changes() returns true if and only if
its changes list is non-empty.
-/
theorem has_changes_iff (cs : ChangeScript) : cs.has_changes = true ↔ cs.changes ≠ [] := by
  cases h : cs.changes <;> simp [ChangeScript.has_changes, h]

/-- C5 witness: has_changes on a concrete one-change script. -/
theorem has_changes_iff_witness :
    ({ sql := "CREATE CATALOG c1;", changes := ["create catalog c1"] } : ChangeScript).has_changes
      = true :=
  (has_changes_iff _).mpr (by simp)

/--
C9: every ChangeScript produced by generate_changes has a non-empty changes
list — extraction falls back to a placeholder entry when the analysis text
yields no change lines — so has_changes() is true for every generated script.
-/
theorem generate_changes_always_nonempty (o : LLMOracle) (sd : SchemaDefinition)
    (cs : CurrentState) :
    (generate_changes o sd cs).changes ≠ [] ∧
    (generate_changes o sd cs).has_changes = true ∧
    extract_changes_list "" = ["Schema changes needed (see SQL script for details)"] :=
  ⟨extract_changes_list_ne_nil _,
   has_changes_of_ne_nil (extract_changes_list_ne_nil _),
   rfl⟩

/-- C9 witness: a concrete generated script has a non-empty change list. -/
theorem generate_changes_always_nonempty_witness :
    (generate_changes oracleNoDiff sdScenario csPresent).has_changes = true :=
  (generate_changes_always_nonempty oracleNoDiff sdScenario csPresent).2.1

/--
C1 evidence: generate_changes has no catalog-existence short-circuit.  On the
spec's own scenario (catalog absent) with a concrete draw of LLM completions,
the change list parsed from the completion has three entries, not exactly one
"create catalog" change.
-/
theorem generate_changes_ignores_catalog_absence :
    csAbsent.catalog_exists = false ∧
    (generate_changes oracleCatalogMissing sdScenario csAbsent).changes
      = ["Create catalog c1", "Create schema s1", "Create table t1"] ∧
    ((generate_changes oracleCatalogMissing sdScenario csAbsent).changes.length == 1) = false :=
  ⟨rfl, rfl, rfl⟩

/--
C2 evidence: on a structurally identical (S, C) pair the generator still
returns a non-empty change list — the placeholder entry — because the change
list is parsed from the LLM completion and the extraction never returns an
empty list; the no-op guarantee is not implemented.
-/
theorem generate_changes_no_noop :
    (generate_changes oracleNoDiff sdScenario csPresent).changes
      = ["Schema changes needed (see SQL script for details)"] ∧
    (generate_changes oracleNoDiff sdScenario csPresent).has_changes = true ∧
    (generate_changes oracleNoDiff sdScenario csPresent).warnings = [] :=
  ⟨rfl, rfl, rfl⟩

/--
C3 evidence: with (S, C) fixed, the change list is a function of the sampled
LLM completion; two different draws for the same inputs yield different
change lists, so two runs are not guaranteed byte-identical.
-/
theorem generate_changes_depends_on_completion :
    (generate_changes oracleDrawA sdScenario csAbsent).changes
      = ["Create catalog c1", "Create schema s1"] ∧
    (generate_changes oracleDrawB sdScenario csAbsent).changes
      = ["Create catalog c1 and then schema s1 inside it"] ∧
    ((generate_changes oracleDrawA sdScenario csAbsent).changes
      == (generate_changes oracleDrawB sdScenario csAbsent).changes) = false :=
  ⟨rfl, rfl, rfl⟩

/--
C4: validate_schema collects every violation present — duplicate schema
names, duplicate table names within a schema, duplicate column names within
a table, and an EXTERNAL table without a location — and raises exactly one
ValidationError whose message enumerates all of the collected descriptions;
it never stops at the first violation.
-/
theorem validate_schema_collects_all (sd : SchemaDefinition) :
    (hasDuplicates (sd.schemas.map Schema.name) = true →
      "Duplicate schema names found" ∈ collectValidationErrors sd) ∧
    (∀ s ∈ sd.schemas, hasDuplicates (s.tables.map Table.name) = true →
      ("Duplicate table names in schema \x27" ++ s.name ++ "\x27")
        ∈ collectValidationErrors sd) ∧
    (∀ s ∈ sd.schemas, ∀ t ∈ s.tables, hasDuplicates (t.columns.map Column.name) = true →
      ("Duplicate column names in table \x27" ++ s.name ++ "." ++ t.name ++ "\x27")
        ∈ collectValidationErrors sd) ∧
    (∀ s ∈ sd.schemas, ∀ t ∈ s.tables, t.type = .EXTERNAL →
      (t.location = none ∨ t.location = some "") →
      ("External table \x27" ++ s.name ++ "." ++ t.name ++ "\x27 must specify a location")
        ∈ collectValidationErrors sd) ∧
    (collectValidationErrors sd ≠ [] →
      validate_schema sd
        = .error ("Schema validation failed: "
            ++ String.intercalate "; " (collectValidationErrors sd))) := by
  refine ⟨?_, ?_, ?_, ?_, ?_⟩
  · intro h
    simp [collectValidationErrors, h]
  · intro s hs hdup
    exact mem_collect_of_mem_schemaErrors hs (by simp [schemaErrors, hdup])
  · intro s hs t ht hdup
    exact mem_collect_of_mem_schemaErrors hs
      (mem_schemaErrors_of_mem_tableErrors ht (by simp [tableErrors, hdup]))
  · intro s hs t ht hty hloc
    refine mem_collect_of_mem_schemaErrors hs
      (mem_schemaErrors_of_mem_tableErrors ht ?_)
    unfold tableErrors
    exact List.mem_append_right _ (by rw [if_pos ⟨hty, hloc⟩]; exact List.mem_singleton_self _)
  · intro h
    simp only [validate_schema]
    rw [if_neg h]

/-- C4 witness: on a definition with all four violations, each description is
collected and the single raised error enumerates them all. -/
theorem validate_schema_collects_all_witness :
    "Duplicate schema names found" ∈ collectValidationErrors sdBad ∧
    ("Duplicate table names in schema \x27" ++ sBad.name ++ "\x27")
      ∈ collectValidationErrors sdBad ∧
    ("Duplicate column names in table \x27" ++ sBad.name ++ "." ++ tDupCols.name ++ "\x27")
      ∈ collectValidationErrors sdBad ∧
    ("External table \x27" ++ sBad.name ++ "." ++ tExtNoLoc.name ++ "\x27 must specify a location")
      ∈ collectValidationErrors sdBad ∧
    validate_schema sdBad
      = .error ("Schema validation failed: "
          ++ String.intercalate "; " (collectValidationErrors sdBad)) := by
  obtain ⟨h1, h2, h3, h4, h5⟩ := validate_schema_collects_all sdBad
  exact ⟨h1 (by decide),
         h2 sBad (by decide) (by decide),
         h3 sBad (by decide) tDupCols (by decide) (by decide),
         h4 sBad (by decide) tExtNoLoc (by decide) rfl (Or.inl rfl),
         h5 (by decide)⟩

/--
C6: when the remote service reports the catalog as not found,
get_current_state returns (rather than raising) a CurrentState with
catalog_exists = false and empty schema, table and volume maps; and a failure
to fetch one table's detailed attributes degrades to that table's basic
attribute dict instead of aborting the whole fetch.
-/
theorem getCurrentState_contract (w : WorkspaceOracle) (cn : String) (sn : Option String) :
    (w.catalogsGet cn = .error .notFound →
      getCurrentState w cn sn
        = .ok { catalog_exists := false, catalog_properties := [],
                schemas := [], tables := [], volumes := [] }) ∧
    (∀ (c s : String) (lst : List TableInfoW) (t : TableInfoW) (e : DbError),
      w.tablesList c s = .ok lst → t ∈ lst → w.tablesGet t.full_name = .error e →
      ∃ r, getTablesInSchema w c s = .ok r ∧ (t.name, tableToDict t) ∈ r) := by
  constructor
  · intro h
    unfold getCurrentState
    rw [h]
  · intro c s lst t e hlist ht hget
    refine ⟨lst.map (fun t =>
      let basic := tableToDict t
      match w.tablesGet t.full_name with
      | .ok det => (t.name, dictUpdate basic (tableToDict det))
      | .error _ => (t.name, basic)), ?_, ?_⟩
    · unfold getTablesInSchema
      rw [hlist]
    · exact List.mem_map.mpr ⟨t, ht, by simp [hget]⟩

/-- C6 witness: a concrete workspace reporting the catalog missing, and a
concrete table whose detail fetch fails but which still appears with its
basic attributes. -/
theorem getCurrentState_contract_witness :
    getCurrentState wEx "main" none
      = .ok { catalog_exists := false, catalog_properties := [],
              schemas := [], tables := [], volumes := [] } ∧
    ∃ r, getTablesInSchema wEx "c" "s" = .ok r ∧ ("t1", tableToDict tEx) ∈ r := by
  refine ⟨(getCurrentState_contract wEx "main" none).1 rfl, ?_⟩
  have h := (getCurrentState_contract wEx "main" none).2 "c" "s" [tEx] tEx
    (.other "timeout fetching table details") rfl (List.mem_singleton_self _) rfl
  simpa using h

/--
C7 counterexample: the "only if" direction of the claimed iff fails — a
MANAGED table with a non-empty location is accepted both at construction and
by validate_schema, so a non-empty location does not imply type EXTERNAL.
-/
theorem managed_table_location_allowed :
    mkTable "t1" .MANAGED (some (some "s3://data/managed")) [] none = .ok tManagedLoc ∧
    validate_schema sdManagedLoc = .ok () ∧
    (tManagedLoc.type == TableType.EXTERNAL) = false ∧
    tManagedLoc.location = some "s3://data/managed" ∧
    ("s3://data/managed" == "") = false :=
  ⟨rfl, rfl, rfl, rfl, rfl⟩

/--
C7 amended: every EXTERNAL table in a schema definition accepted by
validate_schema has a non-empty location, and constructing an EXTERNAL table
with an explicitly passed missing or empty location fails; tables of other
types may nevertheless carry a location.
-/
theorem external_location_required (sd : SchemaDefinition) :
    (validate_schema sd = .ok () →
      ∀ s ∈ sd.schemas, ∀ t ∈ s.tables, t.type = .EXTERNAL →
        ∃ l, t.location = some l ∧ l ≠ "") ∧
    (∀ (n : String) (cols : List Column) (cm : Option String),
      (mkTable n .EXTERNAL (some none) cols cm).isOk = false ∧
      (mkTable n .EXTERNAL (some (some "")) cols cm).isOk = false) := by
  constructor
  · intro hok s hs t ht hty
    by_contra hloc
    push_neg at hloc
    have hfalsy : t.location = none ∨ t.location = some "" := by
      cases hl : t.location with
      | none => exact Or.inl rfl
      | some l => exact Or.inr (congrArg some (hloc l hl))
    have hmem : ("External table \x27" ++ s.name ++ "." ++ t.name ++ "\x27 must specify a location")
        ∈ collectValidationErrors sd := by
      refine mem_collect_of_mem_schemaErrors hs (mem_schemaErrors_of_mem_tableErrors ht ?_)
      unfold tableErrors
      exact List.mem_append_right _
        (by rw [if_pos ⟨hty, hfalsy⟩]; exact List.mem_singleton_self _)
    rw [(validate_schema_ok_iff sd).mp hok] at hmem
    exact absurd hmem (List.not_mem_nil _)
  · intro n cols cm
    constructor <;> {
      unfold mkTable
      cases hn : Table.validate_name n with
      | error e => rfl
      | ok nn => rfl }

/-- C7 amended witness: a validated EXTERNAL table has a non-empty location,
and construction with an explicit missing or empty location fails. -/
theorem external_location_required_witness :
    (∃ l, tExtLoc.location = some l ∧ l ≠ "") ∧
    (mkTable "events" .EXTERNAL (some none) [] none).isOk = false ∧
    (mkTable "events" .EXTERNAL (some (some "")) [] none).isOk = false := by
  obtain ⟨h1, h2⟩ := external_location_required sdOkExt
  exact ⟨h1 rfl sOkExt (by decide) tExtLoc (by decide) rfl,
         (h2 "events" [] none).1, (h2 "events" [] none).2⟩

/--
C8 counterexample: a bare column string is stripped of surrounding
whitespace, so the produced Column's name is not the original string s when s
carries padding.
-/
theorem parse_column_strip_counterexample :
    parse_column (.str " a ") = .ok { name := "a", type := "STRING" } ∧
    ("a" == " a ") = false :=
  ⟨rfl, rfl⟩

/--
C8 amended: a bare string yields Column(name = s stripped, type = STRING),
failing when s is empty or whitespace-only; a mapping entry must contain both
a name and a type key, failing with the corresponding error when either is
missing; nullable, comment and default_value are optional, defaulting to
true / absent / absent and honoured when present.
-/
theorem parse_column_spec (s : String) (d : YamlMap) :
    (pyStrip s ≠ "" → parse_column (.str s) = .ok { name := pyStrip s, type := "STRING" }) ∧
    (pyStrip s = "" → parse_column (.str s) = .error "Column name cannot be empty") ∧
    (d.get "name" = none → parse_column (.map d) = .error "Column must have a \x27name\x27 field") ∧
    (∀ nv, d.get "name" = some nv → d.get "type" = none →
      parse_column (.map d)
        = .error ("Column \x27" ++ nv.render ++ "\x27 must have a \x27type\x27 field")) ∧
    (∀ (n ty : String), pyStrip n ≠ "" →
      parse_column (.map [("name", .s n), ("type", .s ty)])
        = .ok { name := pyStrip n, type := ty } ∧
      ∀ (nb : Bool) (cm dv : String),
        parse_column (.map [("name", .s n), ("type", .s ty), ("nullable", .b nb),
                            ("comment", .s cm), ("default_value", .s dv)])
          = .ok { name := pyStrip n, type := ty, nullable := nb,
                  comment := some cm, default_value := some dv }) := by
  refine ⟨?_, ?_, ?_, ?_, ?_⟩
  · intro h
    have hc : ¬(s = "" ∨ pyStrip s = "") := by
      rintro (rfl | hh)
      · exact h rfl
      · exact h hh
    show mkColumn s "STRING" = _
    unfold mkColumn Column.validate_name
    rw [if_neg hc]
  · intro h
    show mkColumn s "STRING" = _
    unfold mkColumn Column.validate_name
    rw [if_pos (Or.inr h)]
  · intro h
    simp only [parse_column]
    rw [h]
  · intro nv h1 h2
    simp only [parse_column]
    rw [h1, h2]
  · intro n ty h
    have hc : ¬(n = "" ∨ pyStrip n = "") := by
      rintro (rfl | hh)
      · exact h rfl
      · exact h hh
    constructor
    · show mkColumn n ty true none none = _
      unfold mkColumn Column.validate_name
      rw [if_neg hc]
    · intro nb cm dv
      show mkColumn n ty nb (some cm) (some dv) = _
      unfold mkColumn Column.validate_name
      rw [if_neg hc]

/-- C8 amended witness: concrete instances of each clause. -/
theorem parse_column_spec_witness :
    parse_column (.str " id ") = .ok { name := pyStrip " id ", type := "STRING" } ∧
    parse_column (.str " \t ") = .error "Column name cannot be empty" ∧
    parse_column (.map []) = .error "Column must have a \x27name\x27 field" ∧
    parse_column (.map [("name", .s "c")])
      = .error ("Column \x27" ++ (Yaml.s "c").render ++ "\x27 must have a \x27type\x27 field") ∧
    parse_column (.map [("name", .s "c"), ("type", .s "INT")])
      = .ok { name := pyStrip "c", type := "INT" } ∧
    parse_column (.map [("name", .s "c"), ("type", .s "INT"), ("nullable", .b false),
                        ("comment", .s "pk"), ("default_value", .s "0")])
      = .ok { name := pyStrip "c", type := "INT", nullable := false,
              comment := some "pk", default_value := some "0" } :=
  ⟨(parse_column_spec " id " []).1 (by decide),
   (parse_column_spec " \t " []).2.1 (by decide),
   (parse_column_spec "" []).2.2.1 rfl,
   (parse_column_spec "" [("name", .s "c")]).2.2.2.1 (Yaml.s "c") rfl rfl,
   ((parse_column_spec "" []).2.2.2.2 "c" "INT" (by decide)).1,
   ((parse_column_spec "" []).2.2.2.2 "c" "INT" (by decide)).2 false "pk" "0"⟩

/--
C10: every successfully constructed Catalog, Table, Column and Volume stores
its name stripped of leading and trailing whitespace and non-empty after
stripping; construction with an empty or whitespace-only name raises the
corresponding validation error.
-/
theorem constructors_strip_names (v : String) :
    (∀ (ty : String) (nb : Bool) (cm dv : Option String) (c : Column),
      mkColumn v ty nb cm dv = .ok c → c.name = pyStrip v ∧ c.name ≠ "") ∧
    (pyStrip v = "" → ∀ (ty : String) (nb : Bool) (cm dv : Option String),
      mkColumn v ty nb cm dv = .error "Column name cannot be empty") ∧
    (∀ (ty : TableType) (loc : Option (Option String)) (cols : List Column)
        (cm : Option String) (t : Table),
      mkTable v ty loc cols cm = .ok t → t.name = pyStrip v ∧ t.name ≠ "") ∧
    (pyStrip v = "" → ∀ (ty : TableType) (loc : Option (Option String))
        (cols : List Column) (cm : Option String),
      mkTable v ty loc cols cm = .error "Table name cannot be empty") ∧
    (∀ (cm : Option String) (c : Catalog),
      mkCatalog v cm = .ok c → c.name = pyStrip v ∧ c.name ≠ "") ∧
    (pyStrip v = "" → ∀ (cm : Option String),
      mkCatalog v cm = .error "Catalog name cannot be empty") ∧
    (∀ (ty : VolumeType) (loc : Option (Option String)) (cm : Option String) (vol : Volume),
      mkVolume v ty loc cm = .ok vol → vol.name = pyStrip v ∧ vol.name ≠ "") ∧
    (pyStrip v = "" → ∀ (ty : VolumeType) (loc : Option (Option String)) (cm : Option String),
      mkVolume v ty loc cm = .error "Volume name cannot be empty") := by
  refine ⟨?_, ?_, ?_, ?_, ?_, ?_, ?_, ?_⟩
  · intro ty nb cm dv c hc
    unfold mkColumn at hc
    cases hn : Column.validate_name v with
    | error e => rw [hn] at hc; cases hc
    | ok n =>
      rw [hn] at hc
      injection hc with hc
      subst hc
      unfold Column.validate_name at hn
      obtain ⟨h1, h2⟩ := nameValidator_ok hn
      exact ⟨h1, h2⟩
  · intro h ty nb cm dv
    unfold mkColumn Column.validate_name
    rw [if_pos (Or.inr h)]
  · intro ty loc cols cm t hc
    unfold mkTable at hc
    cases hn : Table.validate_name v with
    | error e => rw [hn] at hc; cases hc
    | ok n =>
      rw [hn] at hc
      unfold Table.validate_name at hn
      obtain ⟨h1, h2⟩ := nameValidator_ok hn
      cases hl : tableLocationField ty loc with
      | error e => rw [hl] at hc; cases hc
      | ok lv =>
        rw [hl] at hc
        injection hc with hc
        subst hc
        exact ⟨h1, h2⟩
  · intro h ty loc cols cm
    unfold mkTable Table.validate_name
    rw [if_pos (Or.inr h)]
  · intro cm c hc
    unfold mkCatalog at hc
    cases hn : Catalog.validate_name v with
    | error e => rw [hn] at hc; cases hc
    | ok n =>
      rw [hn] at hc
      injection hc with hc
      subst hc
      unfold Catalog.validate_name at hn
      obtain ⟨h1, h2⟩ := nameValidator_ok hn
      exact ⟨h1, h2⟩
  · intro h cm
    unfold mkCatalog Catalog.validate_name
    rw [if_pos (Or.inr h)]
  · intro ty loc cm vol hc
    unfold mkVolume at hc
    cases hn : Volume.validate_name v with
    | error e => rw [hn] at hc; cases hc
    | ok n =>
      rw [hn] at hc
      unfold Volume.validate_name at hn
      obtain ⟨h1, h2⟩ := nameValidator_ok hn
      cases hl : volumeLocationField ty loc with
      | error e => rw [hl] at hc; cases hc
      | ok lv =>
        rw [hl] at hc
        injection hc with hc
        subst hc
        exact ⟨h1, h2⟩
  · intro h ty loc cm
    unfold mkVolume Volume.validate_name
    rw [if_pos (Or.inr h)]

/-- C10 witness: concrete constructions with padded and blank names. -/
theorem constructors_strip_names_witness :
    (({ name := "ab", type := "INT" } : Column).name = pyStrip " ab "
      ∧ ({ name := "ab", type := "INT" } : Column).name ≠ "") ∧
    mkColumn "  " "INT" true none none = .error "Column name cannot be empty" ∧
    mkTable "\t" .MANAGED none [] none = .error "Table name cannot be empty" ∧
    mkCatalog " " none = .error "Catalog name cannot be empty" ∧
    mkVolume " \n " .MANAGED none none = .error "Volume name cannot be empty" := by
  have h := constructors_strip_names " ab "
  refine ⟨h.1 "INT" true none none { name := "ab", type := "INT" } rfl, ?_, ?_, ?_, ?_⟩
  · exact (constructors_strip_names "  ").2.1 (by decide) "INT" true none none
  · exact (constructors_strip_names "\t").2.2.2.1 (by decide) .MANAGED none [] none
  · exact (constructors_strip_names " ").2.2.2.2.2.1 (by decide) none
  · exact (constructors_strip_names " \n ").2.2.2.2.2.2.2 (by decide) .MANAGED none none

end Schemax
